import Mathlib

/-!
Verification of the user/bucket reconciliation logic of the
terraform-provider-rgw repository, shallowly embedded in Lean.

Strings of the Go source are modelled as lists of characters (`Str`).
Terraform framework values (null / unknown / known) are modelled by the
`TfString`, `TfBool`, `TfInt64` inductives, mirroring the semantics of
`types.String` etc.: `ValueString` returns the empty string on null or
unknown, `ValueBool` returns false, `ValueInt64` returns 0.
-/

abbrev Str := List Char

def str (s : String) : Str := s.data

/-- Model of terraform-plugin-framework types.String. -/
inductive TfString where
  | null
  | unknown
  | value (s : Str)
deriving DecidableEq, Repr

def TfString.valueString : TfString → Str
  | .value s => s
  | _ => []

def TfString.isNull : TfString → Bool
  | .null => true
  | _ => false

def TfString.isUnknown : TfString → Bool
  | .unknown => true
  | _ => false

/-- Model of terraform-plugin-framework types.Bool. -/
inductive TfBool where
  | null
  | unknown
  | value (b : Bool)
deriving DecidableEq, Repr

def TfBool.valueBool : TfBool → Bool
  | .value b => b
  | _ => false

def TfBool.isNull : TfBool → Bool
  | .null => true
  | _ => false

def TfBool.isUnknown : TfBool → Bool
  | .unknown => true
  | _ => false

/-- Model of terraform-plugin-framework types.Int64. -/
inductive TfInt64 where
  | null
  | unknown
  | value (i : Int)
deriving DecidableEq, Repr

def TfInt64.valueInt64 : TfInt64 → Int
  | .value i => i
  | _ => 0

def TfInt64.isNull : TfInt64 → Bool
  | .null => true
  | _ => false

def TfInt64.isUnknown : TfInt64 → Bool
  | .unknown => true
  | _ => false

/-- Model of the `caps` nested attribute element (UserCapModel). -/
structure UserCapModel where
  typ : TfString
  perm : TfString
deriving DecidableEq, Repr

/-- Model of UserResourceModel (terraform state/plan record for rgw_user). -/
structure UserResourceModel where
  id : TfString
  username : TfString
  displayName : TfString
  email : TfString
  generateS3Credentials : TfBool
  exclusiveS3Credentials : TfBool
  caps : List UserCapModel
  opMask : TfString
  maxBuckets : TfInt64
  suspended : TfBool
  tenant : TfString
  accessKey : TfString
  secretKey : TfString
  purgeDataOnDelete : TfBool
deriving DecidableEq, Repr

/-- A user record with every field null; concrete scenarios are built
by updating the relevant fields. -/
def emptyUser : UserResourceModel :=
  { id := .null, username := .null, displayName := .null, email := .null
    generateS3Credentials := .null, exclusiveS3Credentials := .null
    caps := [], opMask := .null, maxBuckets := .null, suspended := .null
    tenant := .null, accessKey := .null, secretKey := .null
    purgeDataOnDelete := .null }

/-- Model of admin.UserKeySpec as it occurs in responses: one access/secret pair. -/
structure KeyPair where
  accessKey : Str
  secretKey : Str
deriving DecidableEq, Repr

/-- Model of admin.UserCapSpec. -/
structure UserCapSpec where
  typ : Str
  perm : Str
deriving DecidableEq, Repr

/-- Model of the admin.User struct used for requests to and responses from
the RGW admin API (only the fields the provider reads or writes). -/
structure RgwUser where
  id : Str
  displayName : Str
  email : Str
  opMask : Str
  generateKey : Option Bool
  keyType : Str
  caps : List UserCapSpec
  maxBuckets : Option Int
  suspended : Option Int
  keys : List KeyPair
  purgeData : Option Int
deriving DecidableEq, Repr

/-- Diagnostics the provider can report, carrying the data interpolated
into the corresponding Go error message. -/
inductive Diag where
  | couldNotCreateUser (err : Str)
  | unexpectedKeyCount (attr : Str) (count : Nat)
  | couldNotGetUser (err : Str)
  | wrongUser (expected got : Str)
  | couldNotModifyUser (err : Str)
  | couldNotRemoveKey (accessKey : Str) (err : Str)
  | couldNotGenerateCredentials (err : Str)
  | keyMismatch (count : Nat) (accessKey : Str)
  | couldNotDeleteUser (err : Str)
  | bucketReadDenied (err : Str)
  | bucketReadWrongIdentity (err : Str)
  | couldNotHeadBucket (err : Str)
  | couldNotDeleteBucket (err : Str)
deriving DecidableEq, Repr

/-- Remote API calls the provider can issue, with the request data relevant
to the claims. -/
inductive RemoteCall where
  | createUser (u : RgwUser)
  | getUser (id : Str)
  | modifyUser (u : RgwUser)
  | removeUser (id : Str) (purgeData : Int)
  | removeKey (uid accessKey : Str)
  | createKey (uid accessKey : Str) (generateKey : Bool)
  | headBucket (name : Str)
  | deleteBucket (name : Str)
deriving DecidableEq, Repr

/-- Errors of the admin API: admin.ErrNoSuchUser is distinguished via
errors.Is in the source; everything else is generic. -/
inductive AdminErr where
  | noSuchUser
  | other (msg : Str)
deriving DecidableEq, Repr

def AdminErr.message : AdminErr → Str
  | .noSuchUser => str "NoSuchUser"
  | .other m => m

/-- Errors of the S3 API: a smithy.APIError with an error code, or a
generic error (errors.As fails). -/
inductive S3Err where
  | api (code : Str) (msg : Str)
  | plain (msg : Str)
deriving DecidableEq, Repr

def S3Err.message : S3Err → Str
  | .api _ m => m
  | .plain m => m

/-- Model of BucketResourceModel. -/
structure BucketResourceModel where
  id : TfString
  name : TfString
deriving DecidableEq, Repr

/-! Identity composition and decomposition (UserResource.Create lines
207-211, UserResource.Read lines 297-305). -/

/-- The remote user id formed at Create: bare username when tenant is
null, otherwise tenant ++ "$" ++ username (fmt.Sprintf of the source). -/
def createUserId (tenant : TfString) (username : Str) : Str :=
  if tenant.isNull then username else tenant.valueString ++ '$' :: username

/-- Split a list at the first occurrence of sep: none when sep does not
occur, otherwise the parts before and after that occurrence. -/
def splitFirst (sep : Char) : Str → Option (Str × Str)
  | [] => none
  | c :: cs =>
      if c = sep then some ([], cs)
      else
        match splitFirst sep cs with
        | none => none
        | some (a, b) => some (c :: a, b)

/-- Model of Go strings.SplitN(s, sep, 2): the whole string when sep does
not occur, otherwise the prefix before the first sep and the whole rest. -/
def goSplitN2 (sep : Char) (s : Str) : List Str :=
  match splitFirst sep s with
  | none => [s]
  | some (a, b) => [a, b]

/-- Read's identity decomposition: split the id on the first '$'; two
parts give (tenant, username), otherwise tenant is null and the whole id
is the username. -/
def readSplitId (id : Str) : TfString × TfString :=
  match goSplitN2 '$' id with
  | [t, u] => (.value t, .value u)
  | _ => (.null, .value id)

/-! Plan-time default resolvers (stringDefaultModifier.PlanModifyString,
int64DefaultModifier.PlanModifyInt64, boolDefaultModifier.PlanModifyBool).
Each is a pure function of the config (declared) value and the current
plan value; the response plan value is left untouched when the modifier
returns early. -/

def stringDefaultPlanModify (dflt : Str) (config plan : TfString) : TfString :=
  if !plan.isNull && !(config.isNull && plan.isUnknown) then plan
  else .value dflt

def int64DefaultPlanModify (dflt : Int) (config plan : TfInt64) : TfInt64 :=
  if !plan.isNull && !(config.isNull && plan.isUnknown) then plan
  else .value dflt

def boolDefaultPlanModify (dflt : Bool) (config plan : TfBool) : TfBool :=
  if !plan.isNull && !(config.isNull && plan.isUnknown) then plan
  else .value dflt

/-- Declared default of op_mask in the rgw_user schema. -/
def opMaskDefault : Str := str "read, write, delete"

/-- Declared default of max_buckets in the rgw_user schema. -/
def maxBucketsDefault : Int := 1000

/-- Declared default of suspended in the rgw_user schema. -/
def suspendedDefault : Bool := false

/-! UserResource.Create. -/

/-- The admin.User request built by Create from the plan data
(lines 201-236): identity fields, key generation flag, caps (note the
source assigns c.Type.ValueString() to both Type and Perm), max_buckets
and suspended. -/
def buildCreateUser (data : UserResourceModel) : RgwUser :=
  let generateKey :=
    data.generateS3Credentials.valueBool || data.generateS3Credentials.isNull
  { id := createUserId data.tenant data.username.valueString
    displayName := data.displayName.valueString
    email := data.email.valueString
    opMask := data.opMask.valueString
    generateKey := some generateKey
    keyType := if generateKey then str "s3" else []
    caps := data.caps.map (fun c => ⟨c.typ.valueString, c.typ.valueString⟩)
    maxBuckets := some data.maxBuckets.valueInt64
    suspended := some (if data.suspended.valueBool then 1 else 0)
    keys := []
    purgeData := none }

/-- Create's handling of a successful CreateUser response (lines 245-260):
record the returned id; with key generation requested, exactly one
returned key pair populates access_key/secret_key, any other count yields
two UnexpectedKeyCount diagnostics; without generation both fields are
forced to null. -/
def createUserFinish (data : UserResourceModel) (created : RgwUser) :
    UserResourceModel × List Diag :=
  let generateKey :=
    data.generateS3Credentials.valueBool || data.generateS3Credentials.isNull
  let data := { data with id := .value created.id }
  if generateKey then
    match created.keys with
    | [k] =>
        ({ data with accessKey := .value k.accessKey
                     secretKey := .value k.secretKey }, [])
    | ks =>
        (data, [.unexpectedKeyCount (str "access_key") ks.length,
                .unexpectedKeyCount (str "secret_key") ks.length])
  else
    ({ data with accessKey := .null, secretKey := .null }, [])

/-- The whole Create flow against a given remote outcome: the CreateUser
call is always issued; an error aborts with a diagnostic, otherwise the
response is merged by createUserFinish. -/
def createUser (data : UserResourceModel) (resp : Except Str RgwUser) :
    UserResourceModel × List Diag × List RemoteCall :=
  let req := buildCreateUser data
  match resp with
  | .error e => (data, [.couldNotCreateUser e], [.createUser req])
  | .ok created =>
      let r := createUserFinish data created
      (r.1, r.2, [.createUser req])

/-! UserResource.Read. -/

/-- Read's merge of the identity and plain attributes from a GetUser
response (lines 297-341): id decomposition, display name, the email
rules, caps (only overwritten when the remote list is non-empty; the
source's else branch assigns to the response, a no-op on the record),
max_buckets and suspended when present. -/
def readMergeAttrs (data : UserResourceModel) (user : RgwUser) :
    UserResourceModel :=
  let ids := readSplitId user.id
  let data := { data with tenant := ids.1, username := ids.2 }
  let data := { data with displayName := .value user.displayName }
  let data :=
    if user.email.length > 0 || !data.email.isNull
    then { data with email := .value user.email } else data
  let data :=
    if user.email = [] && data.email.valueString.length > 0
    then { data with email := .value [] } else data
  let data :=
    if user.caps.length > 0
    then { data with caps := user.caps.map (fun c => ⟨.value c.typ, .value c.perm⟩) }
    else data
  let data :=
    match user.maxBuckets with
    | some m => { data with maxBuckets := .value m }
    | none => data
  match user.suspended with
  | some s =>
      if s < 1 then { data with suspended := .value false }
      else { data with suspended := .value true }
  | none => data

/-- Read's credential block (lines 343-370): with generation enabled
(true or null), look for a remote key matching the recorded access key,
recover its secret and mark the private flags resolved; mark unresolved
flags otherwise; flip exclusive_s3_credentials to false when more than
one remote key exists or a single remote key did not match. With
generation disabled, clear the flags and null both key fields. The
second component collects the private SetKey writes in order. -/
def readCreds (data : UserResourceModel) (user : RgwUser) :
    UserResourceModel × List (Str × Str) :=
  if data.generateS3Credentials.valueBool || data.generateS3Credentials.isNull then
    let fdp :
        Bool × UserResourceModel × List (Str × Str) :=
      if data.accessKey.isNull || data.accessKey.isUnknown then
        (false, data, [(str "mark_unknown_access_key", str "1")])
      else
        match user.keys.find? (fun k => k.accessKey == data.accessKey.valueString) with
        | some k =>
            (true, { data with secretKey := .value k.secretKey },
             [(str "mark_unknown_access_key", str "0"),
              (str "mark_unknown_secret_key", str "0")])
        | none => (false, data, [])
    let found := fdp.1
    let data := fdp.2.1
    let priv := fdp.2.2
    let priv :=
      if !found then priv ++ [(str "mark_unknown_secret_key", str "1")] else priv
    let data :=
      if user.keys.length > 1 || (user.keys.length == 1 && !found)
      then { data with exclusiveS3Credentials := .value false } else data
    (data, priv)
  else
    ({ data with accessKey := .null, secretKey := .null },
     [(str "mark_unknown_access_key", str "0"),
      (str "mark_unknown_secret_key", str "0")])

/-- Result of a Read invocation: state removal, error diagnostics, or the
merged record together with the private-store writes. -/
inductive ReadResult where
  | removed
  | errored (diags : List Diag)
  | ok (data : UserResourceModel) (priv : List (Str × Str))
deriving DecidableEq, Repr

/-- The whole Read flow against a given GetUser outcome (lines 266-374):
ErrNoSuchUser removes the resource without error, any other error is
surfaced; a response whose id differs from the recorded id is an error;
otherwise attributes and credentials are merged. The second component is
the list of remote calls issued. -/
def readUser (data : UserResourceModel) (resp : Except AdminErr RgwUser) :
    ReadResult × List RemoteCall :=
  let calls := [RemoteCall.getUser data.id.valueString]
  match resp with
  | .error .noSuchUser => (.removed, calls)
  | .error (.other m) => (.errored [.couldNotGetUser m], calls)
  | .ok user =>
      if data.id.valueString ≠ user.id then
        (.errored [.wrongUser data.id.valueString user.id], calls)
      else
        let data := readMergeAttrs data user
        let r := readCreds data user
        (.ok r.1 r.2, calls)

/-! UserResource.Update. -/

/-- The admin.User request built by Update from the plan data
(lines 384-416): GenerateKey is explicitly false; caps again assign
c.Type.ValueString() to both Type and Perm. -/
def buildModifyUser (data : UserResourceModel) : RgwUser :=
  { id := data.id.valueString
    displayName := data.displayName.valueString
    email := data.email.valueString
    opMask := data.opMask.valueString
    generateKey := some false
    keyType := []
    caps := data.caps.map (fun c => ⟨c.typ.valueString, c.typ.valueString⟩)
    maxBuckets := some data.maxBuckets.valueInt64
    suspended := some (if data.suspended.valueBool then 1 else 0)
    keys := []
    purgeData := none }

/-- Remote outcomes Update can observe: the ModifyUser result, the
RemoveKey error (if any) per access key, the CreateKey result — where the
returned key list pointer may be nil, modelled as none — and the random
access key the generator would synthesize. -/
structure UpdateEnv where
  modifyResult : Except Str RgwUser
  removeKeyErr : Str → Option Str
  createKeyResult : Except Str (Option (List KeyPair))
  randAccessKey : Str

/-- Accumulator of Update's iteration over the remote keys. -/
structure KeyLoopState where
  data : UserResourceModel
  diags : List Diag
  calls : List RemoteCall
  priv : List (Str × Str)
deriving Repr

/-- One iteration of Update's key loop (lines 429-439): a remote key
matching the recorded access key (while the secret is still unknown and
the access key is not null) resolves the secret; otherwise, when
exclusive_s3_credentials is true or null, the key is removed remotely,
a removal failure being recorded as a diagnostic without stopping. -/
def keyLoopStep (uid : Str) (removeKeyErr : Str → Option Str)
    (st : KeyLoopState) (k : KeyPair) : KeyLoopState :=
  if !st.data.accessKey.isNull && st.data.secretKey.isUnknown &&
      k.accessKey == st.data.accessKey.valueString then
    { st with data := { st.data with secretKey := .value k.secretKey }
              priv := st.priv ++ [(str "mark_unknown_secret_key", str "0")] }
  else if st.data.exclusiveS3Credentials.valueBool ||
      st.data.exclusiveS3Credentials.isNull then
    let st := { st with calls := st.calls ++ [.removeKey uid k.accessKey] }
    match removeKeyErr k.accessKey with
    | some e => { st with diags := st.diags ++ [.couldNotRemoveKey k.accessKey e] }
    | none => st
  else st

/-- Outcome of Update: a normal return with the final record, diagnostics,
remote calls and private writes — or a runtime panic. -/
inductive UpdateResult where
  | panicked
  | done (data : UserResourceModel) (diags : List Diag)
      (calls : List RemoteCall) (priv : List (Str × Str))
deriving DecidableEq, Repr

/-- Update's s3-key management block (lines 426-481), entered only when
the planned secret key is unknown: iterate the modify response's keys
(resolving or deleting), then, if the secret is still unknown, synthesize
an access key if needed and issue a CreateKey call; scan its response for
a pair matching the access key used; a still-unresolved secret is
reported with the response's key count — the source formats len(*keys),
which dereferences a nil key list, modelled as a panic. -/
def updateKeys (uid : Str) (userKeys : List KeyPair) (env : UpdateEnv)
    (data : UserResourceModel) (diags : List Diag) (calls : List RemoteCall) :
    UpdateResult :=
  if data.secretKey.isUnknown then
    let st := userKeys.foldl (keyLoopStep uid env.removeKeyErr)
      { data := data, diags := diags, calls := calls, priv := [] }
    if st.data.secretKey.isUnknown then
      let st :=
        if st.data.accessKey.isUnknown
        then { st with data := { st.data with accessKey := .value env.randAccessKey } }
        else st
      let ak := st.data.accessKey.valueString
      let st : KeyLoopState :=
        { st with calls := st.calls ++ [RemoteCall.createKey uid ak true] }
      match env.createKeyResult with
      | .error e =>
          .done st.data (st.diags ++ [.couldNotGenerateCredentials e]) st.calls st.priv
      | .ok keysOpt =>
          let st : KeyLoopState :=
            match keysOpt with
            | some ks =>
                match ks.find? (fun k => k.accessKey == ak) with
                | some k => { st with data := { st.data with secretKey := .value k.secretKey } }
                | none => st
            | none => st
          if st.data.secretKey.isUnknown then
            match keysOpt with
            | none => .panicked
            | some ks =>
                .done st.data (st.diags ++ [.keyMismatch ks.length ak]) st.calls st.priv
          else
            .done st.data st.diags st.calls
              (st.priv ++ [(str "mark_unknown_access_key", str "0"),
                           (str "mark_unknown_secret_key", str "0")])
    else
      .done st.data st.diags st.calls st.priv
  else
    .done data diags calls []

/-- The whole Update flow against a given environment (lines 376-485):
the ModifyUser call is always issued; an error aborts, otherwise the key
management block runs on the response's key list. -/
def updateUser (data : UserResourceModel) (env : UpdateEnv) : UpdateResult :=
  let req := buildModifyUser data
  match env.modifyResult with
  | .error e => .done data [.couldNotModifyUser e] [.modifyUser req] []
  | .ok user => updateKeys user.id user.keys env data [] [.modifyUser req]

/-! UserResource.Delete and the bucket operations. -/

/-- Delete of a user (lines 487-508): the RemoveUser call carries the
purge flag; an ErrNoSuchUser outcome is not an error, any other error is
surfaced. -/
def deleteUser (data : UserResourceModel) (err : Option AdminErr) :
    List Diag × List RemoteCall :=
  let purge : Int := if data.purgeDataOnDelete.valueBool then 1 else 0
  let calls := [RemoteCall.removeUser data.id.valueString purge]
  match err with
  | some .noSuchUser => ([], calls)
  | some (.other m) => ([.couldNotDeleteUser m], calls)
  | none => ([], calls)

/-- Result of a bucket Read. -/
inductive BucketReadResult where
  | removed
  | errored (diags : List Diag)
  | ok (data : BucketResourceModel)
deriving DecidableEq, Repr

/-- BucketResource.Read (part_000 lines 113-147): HeadBucket by id; a 404
API error removes the resource without error, a 403 is surfaced as a
permission error, anything else as a generic error; on success the name
is set from the request. -/
def bucketRead (data : BucketResourceModel) (err : Option S3Err) :
    BucketReadResult × List RemoteCall :=
  let calls := [RemoteCall.headBucket data.id.valueString]
  match err with
  | none => (.ok { data with name := .value data.id.valueString }, calls)
  | some (.api c m) =>
      if c = str "404" then (.removed, calls)
      else if c = str "403" then (.errored [.bucketReadDenied m], calls)
      else (.errored [.couldNotHeadBucket m], calls)
  | some (.plain m) => (.errored [.couldNotHeadBucket m], calls)

/-- BucketResource.Delete (part_000 lines 163-182): DeleteBucket by id;
every error, of any kind, is surfaced as a diagnostic. -/
def bucketDelete (data : BucketResourceModel) (err : Option S3Err) :
    List Diag × List RemoteCall :=
  (match err with
   | some e => [Diag.couldNotDeleteBucket e.message]
   | none => [],
   [RemoteCall.deleteBucket data.id.valueString])

/-- Keys of a remote key list that do not match the recorded access key;
when the recorded access key is null or unknown no key can match, so all
keys are unmatched. Used to state drift hypotheses. -/
def unmatchedKeys (d : UserResourceModel) (ks : List KeyPair) : List KeyPair :=
  if d.accessKey.isNull || d.accessKey.isUnknown then ks
  else ks.filter (fun k => !(k.accessKey == d.accessKey.valueString))

/-- An admin.User response with every field empty; concrete scenarios are
built by updating the relevant fields. -/
def emptyRgwUser : RgwUser :=
  { id := [], displayName := [], email := [], opMask := [], generateKey := none
    keyType := [], caps := [], maxBuckets := none, suspended := none
    keys := [], purgeData := none }

/-! Evaluation lemmas for the terraform value projections. -/

@[simp] theorem TfString.isNull_null : TfString.null.isNull = true := rfl

@[simp] theorem TfString.isNull_unknown : TfString.unknown.isNull = false := rfl

@[simp] theorem TfString.isNull_value (s : Str) :
    (TfString.value s).isNull = false := rfl

@[simp] theorem TfString.isUnknown_null : TfString.null.isUnknown = false := rfl

@[simp] theorem TfString.isUnknown_unknown :
    TfString.unknown.isUnknown = true := rfl

@[simp] theorem TfString.isUnknown_value (s : Str) :
    (TfString.value s).isUnknown = false := rfl

@[simp] theorem TfString.valueString_value (s : Str) :
    (TfString.value s).valueString = s := rfl

@[simp] theorem TfBool.isNull_tfnull : TfBool.null.isNull = true := rfl

@[simp] theorem TfBool.isNull_tfvalue (b : Bool) :
    (TfBool.value b).isNull = false := rfl

@[simp] theorem TfBool.valueBool_null : TfBool.null.valueBool = false := rfl

@[simp] theorem TfBool.valueBool_value (b : Bool) :
    (TfBool.value b).valueBool = b := rfl

/-! Helper lemmas about splitFirst. -/

theorem splitFirst_of_not_mem (sep : Char) (s : Str) (h : sep ∉ s) :
    splitFirst sep s = none := by
  induction s with
  | nil => rfl
  | cons c cs ih =>
      have hc : ¬ c = sep := fun e => h (by simp [e])
      have hcs : sep ∉ cs := fun m => h (List.mem_cons_of_mem _ m)
      simp [splitFirst, hc, ih hcs]

theorem splitFirst_append_sep (sep : Char) (t u : Str) (h : sep ∉ t) :
    splitFirst sep (t ++ sep :: u) = some (t, u) := by
  induction t with
  | nil => simp [splitFirst]
  | cons c cs ih =>
      have hc : ¬ c = sep := fun e => h (by simp [e])
      have hcs : sep ∉ cs := fun m => h (List.mem_cons_of_mem _ m)
      simp [splitFirst, hc, ih hcs]

/-- C3 (counterexample): the claim quantifies over every tenant/username
pair whose username contains no '$', but a tenant containing '$' breaks
the round trip: the id "a$b" ++ "$" ++ "c" splits at its first '$' into
tenant "a" and username "b$c", not back into ("a$b", "c"). -/
theorem identity_roundtrip_cex :
    ('$' ∉ str "c") ∧
    readSplitId (createUserId (.value (str "a$b")) (str "c")) ≠
      (.value (str "a$b"), .value (str "c")) := by decide

/-- C3 (amended): for every tenant/username pair where neither the tenant
value nor the username contains '$', Read's decomposition of the id formed
at Create yields (tenant, username) again, and for a null tenant the id is
the bare username and splits into (null, username). -/
theorem identity_roundtrip (t u : Str) (ht : '$' ∉ t) (hu : '$' ∉ u) :
    readSplitId (createUserId (.value t) u) = (.value t, .value u) ∧
    readSplitId (createUserId .null u) = (.null, .value u) := by
  constructor
  · simp [createUserId, TfString.isNull, TfString.valueString, readSplitId,
          goSplitN2, splitFirst_append_sep '$' t u ht]
  · simp [createUserId, TfString.isNull, readSplitId, goSplitN2,
          splitFirst_of_not_mem '$' u hu]

/-- C3 (witness): the round trip at tenant "acme", username "bob". -/
theorem identity_roundtrip_witness :
    readSplitId (createUserId (.value (str "acme")) (str "bob")) =
      (.value (str "acme"), .value (str "bob")) ∧
    readSplitId (createUserId .null (str "bob")) =
      (.null, .value (str "bob")) :=
  identity_roundtrip (str "acme") (str "bob") (by decide) (by decide)

/-- C4 (counterexample): with the declared (config) value null and the
planned value null — hence not unknown — the claim requires the resolver
to leave the planned value untouched, but the op_mask resolver sets the
default. -/
theorem default_modifier_cex :
    stringDefaultPlanModify opMaskDefault .null .null = .value opMaskDefault ∧
    stringDefaultPlanModify opMaskDefault .null .null ≠ .null := by decide

/-- C4 (amended): each optional computed field's resolver (op_mask with
default "read, write, delete", max_buckets with default 1000, suspended
with default false) sets the planned value to the default exactly when the
planned value is null, or the planned value is unknown and the declared
value is null; in every other case the planned value is left untouched —
in particular a planned value initialized from a present, non-null
declared value is kept verbatim. -/
theorem default_modifiers_characterization :
    (∀ config plan, stringDefaultPlanModify opMaskDefault config plan =
      if plan.isNull || (config.isNull && plan.isUnknown)
      then .value opMaskDefault else plan) ∧
    (∀ v, stringDefaultPlanModify opMaskDefault (.value v) (.value v) = .value v) ∧
    (∀ config plan, int64DefaultPlanModify maxBucketsDefault config plan =
      if plan.isNull || (config.isNull && plan.isUnknown)
      then .value maxBucketsDefault else plan) ∧
    (∀ v, int64DefaultPlanModify maxBucketsDefault (.value v) (.value v) = .value v) ∧
    (∀ config plan, boolDefaultPlanModify suspendedDefault config plan =
      if plan.isNull || (config.isNull && plan.isUnknown)
      then .value suspendedDefault else plan) ∧
    (∀ v, boolDefaultPlanModify suspendedDefault (.value v) (.value v) = .value v) := by
  refine ⟨fun config plan => ?_, fun v => rfl, fun config plan => ?_,
         fun v => rfl, fun config plan => ?_, fun v => rfl⟩ <;>
    cases config <;> cases plan <;>
      simp [stringDefaultPlanModify, int64DefaultPlanModify, boolDefaultPlanModify,
            TfString.isNull, TfString.isUnknown, TfInt64.isNull, TfInt64.isUnknown,
            TfBool.isNull, TfBool.isUnknown]

/-- C6: user Read maps a remote "no such user" to resource removal with no
error and any other remote error (permission denied included) to an error
without removal; bucket Read maps a 404 API error to removal with no error
and a 403 to a permission error without removal. -/
theorem read_notfound_removes_denied_errors (d : UserResourceModel)
    (b : BucketResourceModel) (m : Str) :
    (readUser d (.error .noSuchUser)).1 = .removed ∧
    (readUser d (.error (.other m))).1 = .errored [.couldNotGetUser m] ∧
    (bucketRead b (some (.api (str "404") m))).1 = .removed ∧
    (bucketRead b (some (.api (str "403") m))).1 = .errored [.bucketReadDenied m] := by
  refine ⟨rfl, rfl, ?_, ?_⟩ <;> simp [bucketRead, str]

/-- C7 (counterexample): a bucket Delete whose remote error is the 404
not-found API error still surfaces a diagnostic, so Delete on an
already-absent bucket is treated as a failure, against the claim. -/
theorem bucket_delete_notfound_cex :
    (bucketDelete { id := .value (str "b"), name := .value (str "b") }
        (some (.api (str "404") (str "NoSuchBucket")))).1 ≠ [] := by decide

/-- C7 (amended): user Delete succeeds with no error when the remote error
is "no such user" (or there is none) and surfaces any other remote error;
bucket Delete surfaces every remote error, the not-found error included. -/
theorem delete_idempotency (d : UserResourceModel) (b : BucketResourceModel)
    (m : Str) (e : S3Err) :
    (deleteUser d (some .noSuchUser)).1 = [] ∧
    (deleteUser d none).1 = [] ∧
    (deleteUser d (some (.other m))).1 = [.couldNotDeleteUser m] ∧
    (bucketDelete b none).1 = [] ∧
    (bucketDelete b (some e)).1 = [.couldNotDeleteBucket e.message] :=
  ⟨rfl, rfl, rfl, rfl, rfl⟩

/-- Declared caps list of the C8 scenario: one cap of type "usage" with
permission "read". -/
def c8user : UserResourceModel :=
  { emptyUser with caps := [⟨.value (str "usage"), .value (str "read")⟩] }

/-- C8: both the create and the modify request populate each cap's Perm
field from the declared cap's Type — for the declared cap
{type "usage", perm "read"} the sent cap is {Type "usage", Perm "usage"},
not {Type "usage", Perm "read"} as the claim requires. -/
theorem caps_perm_sent_from_type :
    (buildCreateUser c8user).caps = [⟨str "usage", str "usage"⟩] ∧
    (buildModifyUser c8user).caps = [⟨str "usage", str "usage"⟩] ∧
    (buildCreateUser c8user).caps ≠ [⟨str "usage", str "read"⟩] := by decide

/-- Plan record of the C5 scenario: key generation explicitly disabled,
but the planned secret key marked unknown (as the private-store plan
modifier does after a pass that could not resolve the secret). -/
def c5user : UserResourceModel :=
  { emptyUser with id := .value (str "u")
                   generateS3Credentials := .value false
                   accessKey := .value (str "AK1")
                   secretKey := .unknown }

/-- Remote environment of the C5 scenario: the modify call succeeds with
no remote keys and the key-creation call returns the pair for AK1. -/
def c5env : UpdateEnv :=
  { modifyResult := .ok { emptyRgwUser with id := str "u" }
    removeKeyErr := fun _ => none
    createKeyResult := .ok (some [⟨str "AK1", str "SK1"⟩])
    randAccessKey := [] }

/-- C5: with generate_s3_credentials explicitly false, Update still issues
a key-creation remote call whenever the planned secret key is unknown —
its key-management block is guarded only by that unknownness and never
consults generate_s3_credentials, against the claim (and the schema's
documented meaning of setting the flag to false). -/
theorem update_creates_key_despite_disabled :
    c5user.generateS3Credentials = .value false ∧
    updateUser c5user c5env =
      .done { c5user with secretKey := .value (str "SK1") } []
        [.modifyUser (buildModifyUser c5user),
         .createKey (str "u") (str "AK1") true]
        [(str "mark_unknown_access_key", str "0"),
         (str "mark_unknown_secret_key", str "0")] := by decide

/-- Plan record of the C10 scenario: secret key unknown, access key
recorded. -/
def c10user : UserResourceModel :=
  { emptyUser with id := .value (str "u")
                   accessKey := .value (str "AK1")
                   secretKey := .unknown }

/-- Remote environment of the C10 scenario: the modify call succeeds with
no remote keys and the key-creation call succeeds but returns a nil key
list. -/
def c10env : UpdateEnv :=
  { modifyResult := .ok { emptyRgwUser with id := str "u" }
    removeKeyErr := fun _ => none
    createKeyResult := .ok none
    randAccessKey := str "R" }

/-- C10: a successful key-creation call whose response carries a nil key
list drives Update into formatting len of the nil list — a nil-pointer
dereference, modelled as a panic — instead of the error diagnostic and
normal return the claim requires. -/
theorem update_nil_keylist_panics :
    updateUser c10user c10env = .panicked := by decide

/-- C2: on Create with key generation requested (true or unset), a
creation response with exactly one key pair populates access_key and
secret_key from that pair with no diagnostics, and any other key count
yields the UnexpectedKeyCount diagnostics carrying the offending count on
both key attributes. -/
theorem create_key_count (d : UserResourceModel) (created : RgwUser)
    (hgen : d.generateS3Credentials.valueBool = true ∨
            d.generateS3Credentials.isNull = true) :
    (∀ kp, created.keys = [kp] →
      createUserFinish d created =
        ({ d with id := .value created.id
                  accessKey := .value kp.accessKey
                  secretKey := .value kp.secretKey }, [])) ∧
    (created.keys.length ≠ 1 →
      (createUserFinish d created).2 =
        [.unexpectedKeyCount (str "access_key") created.keys.length,
         .unexpectedKeyCount (str "secret_key") created.keys.length]) := by
  have hg : (d.generateS3Credentials.valueBool ||
      d.generateS3Credentials.isNull) = true := by
    rcases hgen with h | h <;> simp [h]
  constructor
  · intro kp hk
    simp [createUserFinish, hg, hk]
  · intro hn
    rcases hk : created.keys with _ | ⟨k, _ | ⟨k2, ks⟩⟩
    · simp [createUserFinish, hg, hk]
    · rw [hk] at hn; simp at hn
    · simp [createUserFinish, hg, hk]

/-- C2 (witness): key generation unset, a response with the single pair
(AK1, SK1) populates the record. -/
theorem create_key_count_witness :
    createUserFinish { emptyUser with username := .value (str "alice") }
        { emptyRgwUser with id := str "alice", keys := [⟨str "AK1", str "SK1"⟩] } =
      ({ emptyUser with username := .value (str "alice")
                        id := .value (str "alice")
                        accessKey := .value (str "AK1")
                        secretKey := .value (str "SK1") }, []) :=
  (create_key_count { emptyUser with username := .value (str "alice") }
      { emptyRgwUser with id := str "alice", keys := [⟨str "AK1", str "SK1"⟩] }
      (Or.inr rfl)).1 ⟨str "AK1", str "SK1"⟩ rfl

/-- C1: with the planned secret key unknown, a recorded access key, a
modify response listing exactly one key AK2 that does not match it, and
exclusive_s3_credentials true or unset, Update removes AK2, then issues a
key-creation call with the recorded access key, and ends with that access
key and the secret recovered from the creation response; a failed removal
is recorded as a diagnostic and the remaining processing continues
unchanged. -/
theorem update_drift_reconciliation (d : UserResourceModel) (env : UpdateEnv)
    (uid AK2 SK2 : Str) (ks : List KeyPair) (km : KeyPair)
    (hsk : d.secretKey = .unknown)
    (hak : d.accessKey.isNull = false)
    (haku : d.accessKey.isUnknown = false)
    (hne : AK2 ≠ d.accessKey.valueString)
    (hexcl : d.exclusiveS3Credentials.valueBool = true ∨
             d.exclusiveS3Credentials.isNull = true)
    (hck : env.createKeyResult = .ok (some ks))
    (hfind : ks.find? (fun k => k.accessKey == d.accessKey.valueString) = some km) :
    updateKeys uid [⟨AK2, SK2⟩] env d [] [] =
      .done { d with secretKey := .value km.secretKey }
        (match env.removeKeyErr AK2 with
         | some e => [.couldNotRemoveKey AK2 e]
         | none => [])
        [.removeKey uid AK2, .createKey uid d.accessKey.valueString true]
        [(str "mark_unknown_access_key", str "0"),
         (str "mark_unknown_secret_key", str "0")] := by
  have hbeq : (AK2 == d.accessKey.valueString) = false := by
    simp [hne]
  have hex : (d.exclusiveS3Credentials.valueBool ||
      d.exclusiveS3Credentials.isNull) = true := by
    rcases hexcl with h | h <;> simp [h]
  rcases hrm : env.removeKeyErr AK2 with _ | e <;>
    simp [updateKeys, keyLoopStep, hsk, hbeq, hex, haku, hak, hck, hfind, hrm]

/-- Plan record of the C1 witness scenario: secret key unknown, access
key AK1 recorded, exclusive_s3_credentials unset. -/
def c1user : UserResourceModel :=
  { emptyUser with accessKey := .value (str "AK1")
                   secretKey := .unknown
                   exclusiveS3Credentials := .null }

/-- Remote environment of the C1 witness scenario: key removal succeeds
and the key-creation call returns the pair (AK1, SKX). -/
def c1env : UpdateEnv :=
  { modifyResult := .ok emptyRgwUser
    removeKeyErr := fun _ => none
    createKeyResult := .ok (some [⟨str "AK1", str "SKX"⟩])
    randAccessKey := [] }

/-- C1 (witness): the drift scenario at the concrete keys AK1 and AK2. -/
theorem update_drift_reconciliation_witness :
    updateKeys (str "u") [⟨str "AK2", str "SK2"⟩] c1env c1user [] [] =
      .done { c1user with secretKey := .value (str "SKX") } []
        [.removeKey (str "u") (str "AK2"),
         .createKey (str "u") (str "AK1") true]
        [(str "mark_unknown_access_key", str "0"),
         (str "mark_unknown_secret_key", str "0")] :=
  update_drift_reconciliation c1user c1env (str "u") (str "AK2") (str "SK2")
    [⟨str "AK1", str "SKX"⟩] ⟨str "AK1", str "SKX"⟩ rfl rfl rfl (by decide)
    (Or.inr rfl) rfl (by decide)

/-- Read's attribute merge never touches the credential-control fields:
generate_s3_credentials and access_key pass through unchanged. -/
theorem readMergeAttrs_credential_fields (d : UserResourceModel) (user : RgwUser) :
    (readMergeAttrs d user).generateS3Credentials = d.generateS3Credentials ∧
    (readMergeAttrs d user).accessKey = d.accessKey := by
  unfold readMergeAttrs
  cases hmb : user.maxBuckets <;> cases hs : user.suspended <;>
    simp only [hmb, hs] <;> split_ifs <;> simp

/-- With generation enabled and more than one remote key, Read's
credential block flips exclusive_s3_credentials to false. -/
theorem readCreds_exclusive_false (d : UserResourceModel) (user : RgwUser)
    (hgen : (d.generateS3Credentials.valueBool ||
             d.generateS3Credentials.isNull) = true)
    (hlen : 1 < user.keys.length) :
    (readCreds d user).1.exclusiveS3Credentials = .value false := by
  have h1 : decide (user.keys.length > 1) = true := by simp [hlen]
  unfold readCreds
  simp only [hgen, if_true, h1, Bool.true_or]

/-- C9: for key-deletion purposes Update's loop treats a null
exclusive_s3_credentials exactly like an explicit true — an unmatched
remote key is removed under either; while Read issues no key-removal call
(its only remote call is the get) and, after observing at least two
un-matched remote keys, sets exclusive_s3_credentials to false. -/
theorem exclusive_null_drift_semantics :
    (∀ (uid : Str) (rke : Str → Option Str) (st : KeyLoopState) (k : KeyPair),
      (k.accessKey == st.data.accessKey.valueString) = false →
      st.data.exclusiveS3Credentials = .null ∨
        st.data.exclusiveS3Credentials = .value true →
      (keyLoopStep uid rke st k).calls = st.calls ++ [.removeKey uid k.accessKey]) ∧
    (∀ (d : UserResourceModel) (user : RgwUser),
      d.generateS3Credentials.valueBool = true ∨
        d.generateS3Credentials.isNull = true →
      d.id.valueString = user.id →
      2 ≤ (unmatchedKeys d user.keys).length →
      (readUser d (.ok user)).2 = [.getUser d.id.valueString] ∧
      ∃ d2 priv, (readUser d (.ok user)).1 = .ok d2 priv ∧
        d2.exclusiveS3Credentials = .value false) := by
  constructor
  · intro uid rke st k hbeq hexcl
    have hex : (st.data.exclusiveS3Credentials.valueBool ||
        st.data.exclusiveS3Credentials.isNull) = true := by
      rcases hexcl with h | h <;> simp [h]
    cases hrm : rke k.accessKey <;> simp [keyLoopStep, hbeq, hex, hrm]
  · intro d user hgen hid hun
    have hg : (d.generateS3Credentials.valueBool ||
        d.generateS3Credentials.isNull) = true := by
      rcases hgen with h | h <;> simp [h]
    have hlen : 1 < user.keys.length := by
      have h2 : (unmatchedKeys d user.keys).length ≤ user.keys.length := by
        unfold unmatchedKeys
        split
        · exact Nat.le_refl _
        · exact List.length_filter_le _ _
      omega
    refine ⟨by simp [readUser, hid], (readCreds (readMergeAttrs d user) user).1,
      (readCreds (readMergeAttrs d user) user).2, by simp [readUser, hid], ?_⟩
    exact readCreds_exclusive_false (readMergeAttrs d user) user
      (by rw [(readMergeAttrs_credential_fields d user).1]; exact hg) hlen

/-- State record of the C9 witness scenario: two remote keys, neither
matching the recorded access key AK1. -/
def c9user : UserResourceModel :=
  { emptyUser with id := .value (str "alice"), accessKey := .value (str "AK1") }

/-- Remote GetUser response of the C9 witness scenario. -/
def c9remote : RgwUser :=
  { emptyRgwUser with id := str "alice"
                      keys := [⟨str "K1", str "S1"⟩, ⟨str "K2", str "S2"⟩] }

/-- Update-loop state of the C9 witness scenario: exclusive null, secret
unknown, access key AK1 recorded. -/
def c9st : KeyLoopState :=
  { data := { emptyUser with accessKey := .value (str "AK1")
                             secretKey := .unknown
                             exclusiveS3Credentials := .null }
    diags := [], calls := [], priv := [] }

/-- C9 (witness): the null-exclusive deletion and the Read flip at the
concrete drift scenario. -/
theorem exclusive_null_drift_semantics_witness :
    (keyLoopStep (str "u") (fun _ => none) c9st ⟨str "AK2", str "SK2"⟩).calls =
      [RemoteCall.removeKey (str "u") (str "AK2")] ∧
    ((readUser c9user (.ok c9remote)).2 = [.getUser (str "alice")] ∧
     ∃ d2 priv, (readUser c9user (.ok c9remote)).1 = .ok d2 priv ∧
       d2.exclusiveS3Credentials = .value false) :=
  ⟨exclusive_null_drift_semantics.1 (str "u") (fun _ => none) c9st
      ⟨str "AK2", str "SK2"⟩ (by decide) (Or.inl rfl),
   exclusive_null_drift_semantics.2 c9user c9remote (Or.inr rfl) rfl (by decide)⟩
